import Mathlib

/-!
Shallow embedding of `BinMate Final/app.py`, a small Flask backend.

The embedding models:
  * the in-memory user ledger `user_data` and catalog `marketplace_items_db`;
  * the `redeem_item` handler (POST /api/marketplace/redeem);
  * the `get_leaderboard` handler (GET /api/leaderboard);
  * the two AI proxy handlers `get_recommendation` (POST /api/recommend)
    and `scan_image` (POST /api/scan/image), with the remote HTTP call to
    the generative AI service abstracted as an oracle `RemoteResult`
    (transport success with a parsed JSON body, an HTTP error status from
    `raise_for_status`, or a connection failure with no response object).

Python values appearing in request/response bodies are modelled by the
inductive `Json`; Python truthiness, `dict.get`, `d[key]` subscription and
`xs[0]` indexing are modelled by `pyFalsy`, `pyGet`, `pyGetItem` and
`pyIndex0`, with the exceptions they can raise modelled by `PyExc`.
Python integers are unbounded, so point balances are `Int`.
-/

/-- A JSON / Python value, as manipulated by the handlers. -/
inductive Json where
  | null
  | bool (b : Bool)
  | num (n : Int)
  | str (s : String)
  | arr (xs : List Json)
  | obj (fields : List (String × Json))
deriving Repr

/-- Python exceptions relevant to the handlers' `except` clauses.
`typeError` and `attributeError` are only caught by the generic
`except Exception` clauses. -/
inductive PyExc where
  | keyError
  | indexError
  | typeError
  | attributeError
deriving Repr, DecidableEq

/-- Python truthiness of a value (`not x` is true exactly when `x` is falsy). -/
def pyFalsy : Json → Bool
  | Json.null => true
  | Json.bool b => !b
  | Json.num n => n == 0
  | Json.str s => s.isEmpty
  | Json.arr xs => xs.isEmpty
  | Json.obj fs => fs.isEmpty

/-- Python `d.get(key, default)`: only `dict`s have a `.get` method, every
other value raises `AttributeError`. -/
def pyGet (j : Json) (key : String) (default : Json) : Except PyExc Json :=
  match j with
  | Json.obj fs =>
    match fs.find? (fun p => p.1 == key) with
    | some p => Except.ok p.2
    | none => Except.ok default
  | _ => Except.error PyExc.attributeError

/-- Python `d[key]` with a string key: a `dict` yields the value or raises
`KeyError`; any other value raises `TypeError`. -/
def pyGetItem (j : Json) (key : String) : Except PyExc Json :=
  match j with
  | Json.obj fs =>
    match fs.find? (fun p => p.1 == key) with
    | some p => Except.ok p.2
    | none => Except.error PyExc.keyError
  | _ => Except.error PyExc.typeError

/-- Python `x[0]`: a list yields its head or raises `IndexError`; a `dict`
raises `KeyError` (no key equals the integer 0, JSON keys are strings); a
string yields its first character or raises `IndexError`; other values are
not subscriptable and raise `TypeError`. -/
def pyIndex0 : Json → Except PyExc Json
  | Json.arr [] => Except.error PyExc.indexError
  | Json.arr (x :: _) => Except.ok x
  | Json.obj _ => Except.error PyExc.keyError
  | Json.str s => if s.isEmpty then Except.error PyExc.indexError else Except.ok (Json.str (s.take 1))
  | _ => Except.error PyExc.typeError

/-- The mutable user ledger `user_data` (lines 15-18). -/
structure UserData where
  name : String
  points : Int
deriving Repr

/-- The initial contents of `user_data`. -/
def initial_user : UserData := { name := "User", points := 1250 }

/-- The catalog `marketplace_items_db` (lines 21-26), an association list of
item names to point costs. -/
def marketplace_items_db : List (String × Int) :=
  [("Cloth Tote Bag", 500),
   ("Seed Paper Pack", 350),
   ("Bamboo Coffee Cup", 750),
   ("Compost Bin", 1500)]

/-- Catalog lookup: `marketplace_items_db[item_name]` when the key is
present, `none` otherwise. -/
def lookupItem (s : String) : Option Int :=
  (marketplace_items_db.find? (fun p => p.1 == s)).map (fun p => p.2)

/-- The JSON body and status code returned by `redeem_item`. The 404
response carries no `new_points` field, modelled by `none`. -/
structure RedeemResponse where
  success : Bool
  message : String
  new_points : Option Int
  status : Nat
deriving Repr, DecidableEq

/-- What the `redeem_item` handler produced: a JSON response with a status
code, or an exception that escaped the handler. `redeem_item` has no
`try`/`except` at all, so an exception raised inside it reaches the
framework, which emits its own generic error page and none of the
handler's JSON bodies. -/
inductive RedeemOutcome where
  | response (r : RedeemResponse)
  | raised
deriving Repr, DecidableEq

/-- The 404 "Item not found." response body. -/
def notFound404 : RedeemResponse :=
  { success := false, message := "Item not found.", new_points := none, status := 404 }

/-- The `redeem_item` handler (lines 64-89). Its input is
`request.json.get('name')`: `none` when the field is absent, otherwise the
field's JSON value. The Python guard is
`if not item_name or item_name not in marketplace_items_db`, evaluated
left to right:
  * a falsy name — `None` (field absent or null), the empty string, `0`,
    `False`, an empty list, an empty dict — short-circuits at
    `not item_name` and takes the 404 branch;
  * for a truthy name the dict-membership test runs. A string is looked
    up among the keys; truthy numbers and booleans are hashable but equal
    no string key, so they take the 404 branch; a truthy list or dict is
    unhashable, so hashing it for the membership test raises
    `TypeError: unhashable type` and the handler crashes (`raised`)
    before touching the ledger.
Returns the outcome together with the ledger after the call. -/
def redeem_item (item_name : Option Json) (user : UserData) : RedeemOutcome × UserData :=
  match item_name with
  | some (Json.str s) =>
    if s.isEmpty then (RedeemOutcome.response notFound404, user)
    else
      match lookupItem s with
      | none => (RedeemOutcome.response notFound404, user)
      | some item_cost =>
        if item_cost ≤ user.points then
          let newUser : UserData := { user with points := user.points - item_cost }
          (RedeemOutcome.response
            { success := true,
              message := "Successfully redeemed " ++ s ++ "!",
              new_points := some newUser.points,
              status := 200 }, newUser)
        else
          (RedeemOutcome.response
            { success := false,
              message := "Not enough points to redeem " ++ s ++ ".",
              new_points := some user.points,
              status := 400 }, user)
  | some (Json.arr xs) =>
    if xs.isEmpty then (RedeemOutcome.response notFound404, user)
    else (RedeemOutcome.raised, user)
  | some (Json.obj fs) =>
    if fs.isEmpty then (RedeemOutcome.response notFound404, user)
    else (RedeemOutcome.raised, user)
  | _ => (RedeemOutcome.response notFound404, user)

/-- One row of the leaderboard response. -/
structure LBEntry where
  rank : Nat
  name : String
  points : Int
deriving Repr

/-- The `get_leaderboard` handler (lines 37-49): six fixed rows plus a
"You" row whose points are read from the ledger at request time. -/
def get_leaderboard (user : UserData) : List LBEntry :=
  [{ rank := 1, name := "K Keerthana", points := 5430 },
   { rank := 2, name := "Deepika", points := 5120 },
   { rank := 3, name := "Aravind", points := 4980 },
   { rank := 4, name := "Sai Charan", points := 3200 },
   { rank := 5, name := "Priya", points := 2150 },
   { rank := 6, name := "Ramesh", points := 1500 },
   { rank := 7, name := "You", points := user.points }]

/-- One request to the backend, as far as the user ledger is concerned.
The read endpoints (`/api/user`, `/api/leaderboard`, `/api/marketplace`,
`/api/news`) never write `user_data`; the AI endpoints never reference it
at all; only `redeem_item` mutates it. -/
inductive Op where
  | getUser
  | getLeaderboard
  | getMarketplace
  | getNews
  | redeem (name : Option Json)

/-- The effect of one request on the ledger. -/
def apply_op (user : UserData) : Op → UserData
  | Op.redeem n => (redeem_item n user).2
  | _ => user

/-- The ledger after serving a sequence of requests, starting from the
process-start state `initial_user`. -/
def run_ops (ops : List Op) : UserData :=
  ops.foldl apply_op initial_user

/-- Outcome of `requests.post(api_url, json=payload)` followed by
`response.raise_for_status()` and `response.json()`:
  * `ok body`: 2xx response whose body parsed to `body`;
  * `httpError status`: `raise_for_status` raised `requests.HTTPError`
    (a `RequestException` whose `e.response` is the remote response,
    carrying `status_code = status`);
  * `connectionError`: the request itself failed (e.g.
    `requests.ConnectionError`, also a `RequestException`) — `e.response`
    is `None`. -/
inductive RemoteResult where
  | ok (body : Json)
  | httpError (status : Nat)
  | connectionError
deriving Repr

/-- What a handler produced: a JSON response with a status code, or an
exception that escaped the handler (leaving the framework to emit its own
generic 500, with none of the handler's JSON bodies). -/
inductive HandlerResult where
  | response (status : Nat) (body : Json)
  | raised
deriving Repr

/-- A handler run: whether an outbound call to the remote AI service was
made, and what the handler produced. -/
structure Outcome where
  remoteCalled : Bool
  result : HandlerResult
deriving Repr

/-- The HTTP status of an outcome, `none` when the handler raised. -/
def Outcome.status (o : Outcome) : Option Nat :=
  match o.result with
  | HandlerResult.response s _ => some s
  | HandlerResult.raised => none

/-- A JSON error body as built by `jsonify(\x7b'error': msg\x7d)`. -/
def errBody (msg : String) : Json :=
  Json.obj [("error", Json.str msg)]

/-- Truthiness of `os.getenv('GEMINI_API_KEY')`: `None` (variable absent)
and the empty string are falsy. -/
def apiKeyMissing : Option String → Bool
  | none => true
  | some s => s.isEmpty

/-- The fallback text used as the final `.get('text', ...)` default in
`get_recommendation`. -/
def fallback_text : String :=
  "Sorry, I could not think of a recommendation right now."

/-- The field-extraction chain of `get_recommendation` (line 117):
`ai_response.get('candidates', [\x7b\x7d])[0].get('content', \x7b\x7d).get('parts', [\x7b\x7d])[0].get('text', fallback)`,
with each step's Python exception propagated. -/
def extract_recommendation (ai : Json) : Except PyExc Json := do
  let cands ← pyGet ai "candidates" (Json.arr [Json.obj []])
  let c0 ← pyIndex0 cands
  let content ← pyGet c0 "content" (Json.obj [])
  let parts ← pyGet content "parts" (Json.arr [Json.obj []])
  let p0 ← pyIndex0 parts
  pyGet p0 "text" (Json.str fallback_text)

/-- The `get_recommendation` handler (lines 92-127). Inputs: the value of
`os.getenv('GEMINI_API_KEY')`, the parsed request body, and the remote
oracle. The `try` block reads `request.json['item']` (KeyError when the
field is absent, TypeError when the body is not a dict), rejects a falsy
item with 400, then makes the remote call and extracts the recommendation
text. The `except` clauses map `RequestException` to the 500
"Could not reach the AI service." body, `(KeyError, IndexError)` to the
500 "Received an invalid response from the AI service." body — note this
also catches the KeyError of a missing `item` field — and any other
exception to the generic 500 body. The prompt/payload construction
(f-strings and dict literals) cannot raise and is not modelled beyond the
fact that a remote call is made. -/
def get_recommendation (apiKey : Option String) (body : Json) (remote : RemoteResult) : Outcome :=
  if apiKeyMissing apiKey then
    { remoteCalled := false,
      result := HandlerResult.response 500 (errBody "API key not configured on the server.") }
  else
    match pyGetItem body "item" with
    | Except.error PyExc.keyError =>
      { remoteCalled := false,
        result := HandlerResult.response 500 (errBody "Received an invalid response from the AI service.") }
    | Except.error _ =>
      { remoteCalled := false,
        result := HandlerResult.response 500 (errBody "An internal server error occurred.") }
    | Except.ok item =>
      if pyFalsy item then
        { remoteCalled := false,
          result := HandlerResult.response 400 (errBody "Item field cannot be empty.") }
      else
        match remote with
        | RemoteResult.httpError _ =>
          { remoteCalled := true,
            result := HandlerResult.response 500 (errBody "Could not reach the AI service.") }
        | RemoteResult.connectionError =>
          { remoteCalled := true,
            result := HandlerResult.response 500 (errBody "Could not reach the AI service.") }
        | RemoteResult.ok ai =>
          match extract_recommendation ai with
          | Except.ok t =>
            { remoteCalled := true,
              result := HandlerResult.response 200 (Json.obj [("recommendation", t)]) }
          | Except.error PyExc.keyError =>
            { remoteCalled := true,
              result := HandlerResult.response 500 (errBody "Received an invalid response from the AI service.") }
          | Except.error PyExc.indexError =>
            { remoteCalled := true,
              result := HandlerResult.response 500 (errBody "Received an invalid response from the AI service.") }
          | Except.error _ =>
            { remoteCalled := true,
              result := HandlerResult.response 500 (errBody "An internal server error occurred.") }

/-- The `scan_image` handler (lines 135-155). The `try` block reads
`request.json['imageData']` (KeyError when absent — its value is never
inspected, not even for emptiness), then makes the remote call and returns
the remote JSON unmodified. The `except` clauses: `RequestException`
formats `e.response.status_code` into the 500 error body — when
`e.response` is `None` (connection failure) that attribute access itself
raises `AttributeError` inside the handler, which escapes the `try`
(later clauses of the same `try` do not apply), modelled as `raised`;
`KeyError` maps to the 400 missing-field body; any other exception to the
generic 500 body. -/
def scan_image (apiKey : Option String) (body : Json) (remote : RemoteResult) : Outcome :=
  if apiKeyMissing apiKey then
    { remoteCalled := false,
      result := HandlerResult.response 500 (errBody "API key not configured on the server.") }
  else
    match pyGetItem body "imageData" with
    | Except.error PyExc.keyError =>
      { remoteCalled := false,
        result := HandlerResult.response 400 (errBody "Invalid request: \"imageData\" field missing.") }
    | Except.error _ =>
      { remoteCalled := false,
        result := HandlerResult.response 500 (errBody "An internal server error occurred.") }
    | Except.ok _ =>
      match remote with
      | RemoteResult.ok ai =>
        { remoteCalled := true, result := HandlerResult.response 200 ai }
      | RemoteResult.httpError status =>
        { remoteCalled := true,
          result := HandlerResult.response 500
            (errBody ("Could not reach Google API. Status: " ++ toString status)) }
      | RemoteResult.connectionError =>
        { remoteCalled := true, result := HandlerResult.raised }

/-! ## Helper lemmas -/

/-- Every key of the catalog is a non-empty string. -/
lemma lookup_key_not_empty (s : String) (c : Int) (h : lookupItem s = some c) :
    s.isEmpty = false := by
  unfold lookupItem at h
  cases hf : marketplace_items_db.find? (fun p => p.1 == s) with
  | none => rw [hf] at h; simp at h
  | some pr =>
    have hmem : pr ∈ marketplace_items_db := List.mem_of_find?_eq_some hf
    have hpred := List.find?_some hf
    have hps : pr.1 = s := by simpa using hpred
    simp only [marketplace_items_db, List.mem_cons, List.not_mem_nil, or_false] at hmem
    rcases hmem with h1 | h1 | h1 | h1 <;> (rw [h1] at hps; rw [← hps]; rfl)

/-- A successful redemption never drives the balance negative, and every
other path — failure, 404, or the crash on an unhashable name — leaves
the balance unchanged. -/
lemma redeem_points_nonneg (n : Option Json) (u : UserData) (h : 0 ≤ u.points) :
    0 ≤ (redeem_item n u).2.points := by
  match n with
  | none => exact h
  | some Json.null => exact h
  | some (Json.bool b) => exact h
  | some (Json.num k) => exact h
  | some (Json.arr xs) =>
    simp only [redeem_item]
    split <;> exact h
  | some (Json.obj fs) =>
    simp only [redeem_item]
    split <;> exact h
  | some (Json.str s) =>
    simp only [redeem_item]
    split
    · exact h
    · split
      · exact h
      · split
        · next hle => simpa using sub_nonneg.mpr hle
        · exact h

/-- Invariant preservation along any request sequence. -/
lemma foldl_points_nonneg (ops : List Op) :
    ∀ u : UserData, 0 ≤ u.points → 0 ≤ (ops.foldl apply_op u).points := by
  induction ops with
  | nil => intro u h; exact h
  | cons op rest ih =>
    intro u h
    refine ih _ ?_
    cases op with
    | redeem n => exact redeem_points_nonneg n u h
    | getUser => exact h
    | getLeaderboard => exact h
    | getMarketplace => exact h
    | getNews => exact h

/-- The "You" row of the leaderboard always carries the ledger's points. -/
lemma leaderboard_you (u : UserData) :
    ((get_leaderboard u).filter (fun e => e.name == "You")).map LBEntry.points = [u.points] := by
  rfl

/-! ## Claims about the redemption operation -/

/-- Claim C1: for every redemption request whose item name is a key of the
catalog with cost `c`, if the user's current points `p` satisfy `p ≥ c`,
then redeem returns `success = true` with `new_points = p - c` and the
stored balance after the call equals `p - c`. -/
theorem C1_redeem_success (s : String) (c : Int) (u : UserData)
    (hc : lookupItem s = some c) (hp : c ≤ u.points) :
    (redeem_item (some (Json.str s)) u).1
      = RedeemOutcome.response
          { success := true,
            message := "Successfully redeemed " ++ s ++ "!",
            new_points := some (u.points - c),
            status := 200 } ∧
    (redeem_item (some (Json.str s)) u).2.points = u.points - c := by
  have hs : s.isEmpty = false := lookup_key_not_empty s c hc
  simp [redeem_item, hs, hc, hp]

/-- Witness for C1: redeeming "Cloth Tote Bag" (cost 500) at the initial
balance 1250 succeeds with new balance 750 (the spec's own example). -/
theorem C1_redeem_success_witness :
    (redeem_item (some (Json.str "Cloth Tote Bag")) initial_user).1
      = RedeemOutcome.response
          { success := true,
            message := "Successfully redeemed " ++ "Cloth Tote Bag" ++ "!",
            new_points := some (1250 - 500),
            status := 200 } ∧
    (redeem_item (some (Json.str "Cloth Tote Bag")) initial_user).2.points = 1250 - 500 :=
  C1_redeem_success "Cloth Tote Bag" 500 initial_user rfl (by decide)

/-- Claim C2: for every redemption request whose item name is a key of the
catalog with cost `c`, if the user's current points `p` satisfy `p < c`,
then redeem returns HTTP 400 with `success = false` and
`new_points = p`, and the stored balance is unchanged. -/
theorem C2_redeem_insufficient (s : String) (c : Int) (u : UserData)
    (hc : lookupItem s = some c) (hp : u.points < c) :
    (redeem_item (some (Json.str s)) u).1
      = RedeemOutcome.response
          { success := false,
            message := "Not enough points to redeem " ++ s ++ ".",
            new_points := some u.points,
            status := 400 } ∧
    (redeem_item (some (Json.str s)) u).2 = u := by
  have hs : s.isEmpty = false := lookup_key_not_empty s c hc
  have hnle : ¬ (c ≤ u.points) := not_le.mpr hp
  simp [redeem_item, hs, hc, hnle]

/-- Witness for C2: redeeming "Cloth Tote Bag" (cost 500) at balance 100
fails with status 400, `success = false`, `new_points = 100` and an
unchanged ledger (the spec's own example). -/
theorem C2_redeem_insufficient_witness :
    (redeem_item (some (Json.str "Cloth Tote Bag")) { name := "User", points := 100 }).1
      = RedeemOutcome.response
          { success := false,
            message := "Not enough points to redeem " ++ "Cloth Tote Bag" ++ ".",
            new_points := some 100,
            status := 400 } ∧
    (redeem_item (some (Json.str "Cloth Tote Bag")) { name := "User", points := 100 }).2
      = { name := "User", points := 100 } :=
  C2_redeem_insufficient "Cloth Tote Bag" 500 { name := "User", points := 100 } rfl (by decide)

/-- Counterexample to claim C3 as stated: the name `[1]` — a value that is
certainly not a key of the catalog — does NOT produce the 404
"Item not found." response. A non-empty list is truthy, so
`not item_name` is false and the handler evaluates
`item_name not in marketplace_items_db`; hashing the list key raises
`TypeError: unhashable type`, and since `redeem_item` has no
`try`/`except` the handler crashes with no JSON body (the ledger is
still untouched). -/
theorem C3_counterexample :
    (redeem_item (some (Json.arr [Json.num 1])) initial_user).1 = RedeemOutcome.raised ∧
    (redeem_item (some (Json.arr [Json.num 1])) initial_user).1
      ≠ RedeemOutcome.response
          { success := false, message := "Item not found.", new_points := none, status := 404 } ∧
    (redeem_item (some (Json.arr [Json.num 1])) initial_user).2 = initial_user := by
  refine ⟨rfl, ?_, rfl⟩
  decide

/-- Claim C3 (amended): redeem returns HTTP 404 with `success = false` and
message "Item not found.", with the ledger unchanged, for every request
whose name is missing, falsy, or a hashable value that is not a catalog
key — in particular for every string name that is empty or not a key.
But when the name is a truthy (non-empty) list or object, the
dict-membership test raises `TypeError: unhashable type` and the handler
crashes with no 404 body; the ledger is still unchanged. The first
conjunct's hypotheses say exactly that no catalog key matches and that
the name is not a truthy list/object; the other conjuncts cover the
crash path. -/
theorem C3_redeem_not_found (n : Option Json) (u : UserData) :
    ((∀ s, n = some (Json.str s) → lookupItem s = none) →
     (∀ xs, n = some (Json.arr xs) → xs = []) →
     (∀ fs, n = some (Json.obj fs) → fs = []) →
     redeem_item n u
       = (RedeemOutcome.response
           { success := false, message := "Item not found.", new_points := none, status := 404 },
          u)) ∧
    (∀ xs, n = some (Json.arr xs) → xs ≠ [] →
     redeem_item n u = (RedeemOutcome.raised, u)) ∧
    (∀ fs, n = some (Json.obj fs) → fs ≠ [] →
     redeem_item n u = (RedeemOutcome.raised, u)) := by
  refine ⟨?_, ?_, ?_⟩
  · intro hstr harr hobj
    match n with
    | none => rfl
    | some Json.null => rfl
    | some (Json.bool b) => rfl
    | some (Json.num k) => rfl
    | some (Json.arr xs) =>
      have hxs := harr xs rfl
      subst hxs
      rfl
    | some (Json.obj fs) =>
      have hfs := hobj fs rfl
      subst hfs
      rfl
    | some (Json.str s) =>
      have hs := hstr s rfl
      by_cases he : s.isEmpty
      · simp [redeem_item, he, notFound404]
      · simp [redeem_item, he, hs, notFound404]
  · intro xs hn hne
    subst hn
    have hxe : xs.isEmpty = false := by
      cases xs with
      | nil => exact absurd rfl hne
      | cons a t => rfl
    simp [redeem_item, hxe]
  · intro fs hn hne
    subst hn
    have hfe : fs.isEmpty = false := by
      cases fs with
      | nil => exact absurd rfl hne
      | cons a t => rfl
    simp [redeem_item, hfe]

/-- Witness for the amended C3: redeeming the unknown item "Unicorn" at
the initial balance returns the 404 body and leaves the ledger unchanged
(the spec's own example). -/
theorem C3_redeem_not_found_witness :
    redeem_item (some (Json.str "Unicorn")) initial_user
      = (RedeemOutcome.response
          { success := false, message := "Item not found.", new_points := none, status := 404 },
         initial_user) :=
  (C3_redeem_not_found (some (Json.str "Unicorn")) initial_user).1
    (by intro s hs; injection hs with h1; injection h1 with h2; rw [← h2]; rfl)
    (by intro xs hxs; simp at hxs)
    (by intro fs hfs; simp at hfs)

/-- Claim C4: starting from the initial balance 1250, every sequence of
requests (reads and redemptions, with any inputs) leaves the stored
points non-negative. -/
theorem C4_points_never_negative (ops : List Op) :
    0 ≤ (run_ops ops).points := by
  unfold run_ops
  exact foldl_points_nonneg ops initial_user (by decide)

/-! ## Claims about the leaderboard and the AI endpoints -/

/-- Claim C9: for every ledger state, the leaderboard has exactly 7 entries
with ranks ascending 1..7, the "You" entry carries the ledger's points as
read at request time, and consequently after any redemption a subsequent
leaderboard read shows the post-redemption balance. -/
theorem C9_leaderboard_read_through (u : UserData) :
    (get_leaderboard u).length = 7 ∧
    (get_leaderboard u).map LBEntry.rank = [1, 2, 3, 4, 5, 6, 7] ∧
    ((get_leaderboard u).filter (fun e => e.name == "You")).map LBEntry.points = [u.points] ∧
    ∀ n : Option Json,
      ((get_leaderboard (redeem_item n u).2).filter (fun e => e.name == "You")).map LBEntry.points
        = [(redeem_item n u).2.points] :=
  ⟨rfl, rfl, leaderboard_you u, fun n => leaderboard_you (redeem_item n u).2⟩

/-- Claim C5: for every request body and every behaviour of the remote
service, if the API key is absent from process configuration
(`os.getenv` returned `None`), both AI endpoints return the HTTP 500
configuration-error response and make no outbound call. -/
theorem C5_missing_api_key (body : Json) (remote : RemoteResult) :
    (get_recommendation none body remote).remoteCalled = false ∧
    (get_recommendation none body remote).result
      = HandlerResult.response 500 (errBody "API key not configured on the server.") ∧
    (scan_image none body remote).remoteCalled = false ∧
    (scan_image none body remote).result
      = HandlerResult.response 500 (errBody "API key not configured on the server.") :=
  ⟨rfl, rfl, rfl, rfl⟩

/-- Counterexample to claim C6 as stated: with the API key configured, a
request body that lacks the `item` field entirely does NOT get HTTP 400.
The `KeyError` raised by `request.json['item']` is caught by the
`except (KeyError, IndexError)` clause, producing HTTP 500 with the
"invalid response from the AI service" body. -/
theorem C6_counterexample :
    (get_recommendation (some "k") (Json.obj []) RemoteResult.connectionError).status ≠ some 400 ∧
    (get_recommendation (some "k") (Json.obj []) RemoteResult.connectionError).result
      = HandlerResult.response 500 (errBody "Received an invalid response from the AI service.") := by
  exact ⟨by decide, rfl⟩

/-- Claim C6 (amended): with the API key configured, a request whose `item`
field is present but falsy (e.g. the empty string) fails with HTTP 400,
while a request that lacks the `item` field altogether fails with HTTP 500
and the "Received an invalid response from the AI service." body (its
KeyError is caught by the response-parsing `except` clause). Neither makes
a remote call. -/
theorem C6_empty_item_400_missing_item_500 (key : String) (body : Json) (remote : RemoteResult)
    (hk : key.isEmpty = false) :
    (∀ v, pyGetItem body "item" = Except.ok v → pyFalsy v = true →
      (get_recommendation (some key) body remote).result
        = HandlerResult.response 400 (errBody "Item field cannot be empty.") ∧
      (get_recommendation (some key) body remote).remoteCalled = false) ∧
    (pyGetItem body "item" = Except.error PyExc.keyError →
      (get_recommendation (some key) body remote).result
        = HandlerResult.response 500 (errBody "Received an invalid response from the AI service.") ∧
      (get_recommendation (some key) body remote).remoteCalled = false) := by
  constructor
  · intro v hv hfv
    constructor <;> simp [get_recommendation, apiKeyMissing, hk, hv, hfv]
  · intro hv
    constructor <;> simp [get_recommendation, apiKeyMissing, hk, hv]

/-- Witness for the amended C6: an empty `item` value yields the 400
response with no remote call. -/
theorem C6_empty_item_400_missing_item_500_witness :
    (get_recommendation (some "k") (Json.obj [("item", Json.str "")]) RemoteResult.connectionError).result
      = HandlerResult.response 400 (errBody "Item field cannot be empty.") ∧
    (get_recommendation (some "k") (Json.obj [("item", Json.str "")]) RemoteResult.connectionError).remoteCalled
      = false :=
  (C6_empty_item_400_missing_item_500 "k" (Json.obj [("item", Json.str "")])
      RemoteResult.connectionError rfl).1 (Json.str "") rfl rfl

/-- Counterexample to claim C7 as stated: a transport-success response whose
JSON is an object with none of the expected candidates/content/parts/text
fields produces a 200 SUCCESS payload (the `.get` defaults bottom out in
the fallback recommendation text), not an error response. -/
theorem C7_counterexample :
    (get_recommendation (some "k") (Json.obj [("item", Json.str "bottle")])
        (RemoteResult.ok (Json.obj []))).result
      = HandlerResult.response 200 (Json.obj [("recommendation", Json.str fallback_text)]) ∧
    (get_recommendation (some "k") (Json.obj [("item", Json.str "bottle")])
        (RemoteResult.ok (Json.obj []))).status = some 200 :=
  ⟨rfl, rfl⟩

/-- Claim C7 (amended): when the remote JSON is an object simply missing
the `candidates` key (and hence all nested expected fields), the endpoint
returns HTTP 200 with the fallback recommendation text — a success
payload, not an error. The 500 "Received an invalid response from the AI
service." error occurs only when the chain raises `KeyError`/`IndexError`,
e.g. when `candidates` is present but an empty list. -/
theorem C7_missing_fields_fallback_200 (key item : String) (fs : List (String × Json))
    (hk : key.isEmpty = false) (hi : item.isEmpty = false)
    (hc : fs.find? (fun p => p.1 == "candidates") = none) :
    (get_recommendation (some key) (Json.obj [("item", Json.str item)])
        (RemoteResult.ok (Json.obj fs))).result
      = HandlerResult.response 200 (Json.obj [("recommendation", Json.str fallback_text)]) ∧
    (get_recommendation (some key) (Json.obj [("item", Json.str item)])
        (RemoteResult.ok (Json.obj [("candidates", Json.arr [])]))).result
      = HandlerResult.response 500 (errBody "Received an invalid response from the AI service.") := by
  have hext : extract_recommendation (Json.obj fs) = Except.ok (Json.str fallback_text) := by
    simp only [extract_recommendation, pyGet, hc]
    rfl
  have h1 : pyGetItem (Json.obj [("item", Json.str item)]) "item" = Except.ok (Json.str item) := rfl
  have h2 : extract_recommendation (Json.obj [("candidates", Json.arr [])])
      = Except.error PyExc.indexError := rfl
  constructor
  · simp [get_recommendation, apiKeyMissing, hk, h1, pyFalsy, hi, hext]
  · simp [get_recommendation, apiKeyMissing, hk, h1, pyFalsy, hi, h2]

/-- Witness for the amended C7: a remote body of `\x7b\x7d` yields the 200
fallback payload, and `\x7b"candidates": []\x7d` yields the 500 error. -/
theorem C7_missing_fields_fallback_200_witness :
    (get_recommendation (some "k") (Json.obj [("item", Json.str "bottle")])
        (RemoteResult.ok (Json.obj []))).result
      = HandlerResult.response 200 (Json.obj [("recommendation", Json.str fallback_text)]) ∧
    (get_recommendation (some "k") (Json.obj [("item", Json.str "bottle")])
        (RemoteResult.ok (Json.obj [("candidates", Json.arr [])]))).result
      = HandlerResult.response 500 (errBody "Received an invalid response from the AI service.") :=
  C7_missing_fields_fallback_200 "k" "bottle" [] rfl rfl rfl

/-- Claim C8, evaluated on the code: with the key configured and
`imageData` present, an HTTP-level failure whose response is available
(here status 503) does yield the 500 body surfacing the remote status,
but a connection failure (no response object) makes the handler itself
raise — `e.response.status_code` is an attribute access on `None` — so no
ServiceUnavailable JSON is returned at all (the framework produces its
own generic error), contradicting the claim's parenthetical. -/
theorem C8_scan_transport_failure_eval :
    (scan_image (some "k") (Json.obj [("imageData", Json.str "abc")]) (RemoteResult.httpError 503)).result
      = HandlerResult.response 500 (errBody "Could not reach Google API. Status: 503") ∧
    (scan_image (some "k") (Json.obj [("imageData", Json.str "abc")]) RemoteResult.connectionError).result
      = HandlerResult.raised ∧
    (scan_image (some "k") (Json.obj [("imageData", Json.str "abc")]) RemoteResult.connectionError).status
      = none :=
  ⟨rfl, rfl, rfl⟩

/-- Claim C10: in `scan_image`, only the absence of the `imageData` key
produces the 400 missing-field error — any present value, including the
empty string, is accepted and forwarded to the remote service — while
`get_recommendation` rejects an empty `item` value with 400 before any
remote call. -/
theorem C10_scan_accepts_empty_image (key : String) (body : Json) (remote : RemoteResult)
    (hk : key.isEmpty = false) :
    (∀ v, pyGetItem body "imageData" = Except.ok v →
      (scan_image (some key) body remote).remoteCalled = true ∧
      (scan_image (some key) body remote).status ≠ some 400) ∧
    ((scan_image (some key) (Json.obj [("imageData", Json.str "")]) remote).remoteCalled = true) ∧
    ((scan_image (some key) (Json.obj []) remote).result
      = HandlerResult.response 400 (errBody "Invalid request: \"imageData\" field missing.")) ∧
    ((scan_image (some key) (Json.obj []) remote).remoteCalled = false) ∧
    ((get_recommendation (some key) (Json.obj [("item", Json.str "")]) remote).result
      = HandlerResult.response 400 (errBody "Item field cannot be empty.")) ∧
    ((get_recommendation (some key) (Json.obj [("item", Json.str "")]) remote).remoteCalled = false) := by
  refine ⟨?_, ?_, ?_, ?_, ?_, ?_⟩
  · intro v hv
    cases remote <;>
      simp [scan_image, apiKeyMissing, hk, hv, Outcome.status]
  · cases remote <;> simp [scan_image, apiKeyMissing, hk, pyGetItem]
  · simp [scan_image, apiKeyMissing, hk, pyGetItem]
  · simp [scan_image, apiKeyMissing, hk, pyGetItem]
  · have he : ("" : String).isEmpty = true := rfl
    have h1 : pyGetItem (Json.obj [("item", Json.str "")]) "item" = Except.ok (Json.str "") := rfl
    simp [get_recommendation, apiKeyMissing, hk, h1, pyFalsy, he]
  · have he : ("" : String).isEmpty = true := rfl
    have h1 : pyGetItem (Json.obj [("item", Json.str "")]) "item" = Except.ok (Json.str "") := rfl
    simp [get_recommendation, apiKeyMissing, hk, h1, pyFalsy, he]

/-- Witness for C10: an empty-string `imageData` is forwarded (a remote
call is made) and the result is not a 400. -/
theorem C10_scan_accepts_empty_image_witness :
    (scan_image (some "k") (Json.obj [("imageData", Json.str "")])
        (RemoteResult.ok Json.null)).remoteCalled = true ∧
    (scan_image (some "k") (Json.obj [("imageData", Json.str "")])
        (RemoteResult.ok Json.null)).status ≠ some 400 :=
  (C10_scan_accepts_empty_image "k" (Json.obj [("imageData", Json.str "")])
      (RemoteResult.ok Json.null) rfl).1 (Json.str "") rfl
